import Mathlib

/-!
Verification of the authentication & authorization core of the
startup-connect-hub backend (Django REST Framework application).

The definitions below are a shallow embedding of the code in
`src/backend/startups/views.py`, `src/backend/startups/models.py` and
`src/backend/accounts/models.py`, together with the Django REST Framework
request pipeline exactly as configured by those files (permission classes,
lookup fields, cascade options).  Database tables are lists, ids are
naturals, and every endpoint is a function from a database state and an
authenticated principal to an HTTP response and a new database state.
-/

namespace StartupHub

/-- User roles, from `accounts/models.py`, `User.Role`
    (`FOUNDER = 'founder'`, `TALENT = 'talent'`). -/
inductive Role where
  | founder
  | talent
  deriving DecidableEq, Repr

/-- The per-request identity (`request.user` after JWT authentication):
    user id, role and the `is_active` flag. -/
structure Principal where
  id : Nat
  role : Role
  active : Bool
  deriving DecidableEq, Repr

/-- A row of the `startups` table: only the fields the authorization core
    reads (`id`, `owner`), from `startups/models.py`, class `Startup`. -/
structure Startup where
  id : Nat
  owner : Nat
  deriving DecidableEq, Repr

/-- A row of the `startup_interests` table, from `startups/models.py`,
    class `StartupInterest` (`unique_together = ['user', 'startup']`,
    both foreign keys declared `on_delete=CASCADE`). -/
structure Interest where
  user : Nat
  startup : Nat
  deriving DecidableEq, Repr

/-- The persistent state: the `users`, `startups` and `startup_interests`
    tables (users reduced to their ids). -/
structure DB where
  users : List Nat
  startups : List Startup
  interests : List Interest
  deriving DecidableEq, Repr

/-- HTTP methods the views dispatch on. -/
inductive Method where
  | get
  | head
  | options
  | post
  | put
  | patch
  | delete
  deriving DecidableEq, Repr

/-- A response: HTTP status code and the `message` field of the JSON body
    (empty when the view returns no message). -/
structure Resp where
  status : Nat
  message : String
  deriving DecidableEq, Repr

/-- `Startup.objects.get(id=sid)` / queryset lookup by the `id` field
    (`lookup_field = 'id'` in `StartupDetailView`). -/
def findStartup (db : DB) (sid : Nat) : Option Startup :=
  db.startups.find? (fun s => s.id == sid)

/-- `StartupInterest.objects.filter(user=uid, startup=sid).exists()`. -/
def interestExists (db : DB) (uid sid : Nat) : Bool :=
  db.interests.any (fun i => i.user == uid && i.startup == sid)

/-- `rest_framework.permissions.IsAuthenticated.has_permission`: the request
    carries a successfully authenticated, active user (simplejwt refuses
    tokens of inactive users at the authentication step). -/
def isAuthenticated : Option Principal → Bool
  | none => false
  | some p => p.active

/-- Status DRF attaches to a failed permission check: `401` when the request
    is unauthenticated, `403` when it is authenticated. -/
def permDenyResp : Option Principal → Resp
  | none => ⟨401, "Authentication credentials were not provided."⟩
  | some p =>
      if p.active then ⟨403, "You do not have permission to perform this action."⟩
      else ⟨401, "Authentication credentials were not provided."⟩

/-- `IsOwnerOrReadOnly.has_object_permission` from `startups/views.py`:
    read methods are allowed to any authenticated user, write methods only
    to the owner (`obj.owner == request.user`). -/
def isOwnerOrReadOnlyObject (m : Method) (p : Principal) (s : Startup) : Bool :=
  if m == Method.get || m == Method.head || m == Method.options then true
  else s.owner == p.id

/-- `IsTalent.has_permission` from `startups/views.py`:
    authenticated and `request.user.role == User.Role.TALENT`. -/
def isTalentPerm (auth : Option Principal) : Bool :=
  isAuthenticated auth &&
    (match auth with
     | none => false
     | some p => p.role == Role.talent)

/-- DELETE on a `Startup` row: the row is removed and, per the
    `on_delete=models.CASCADE` declaration on `StartupInterest.startup`,
    every interest row referencing it is removed in the same operation. -/
def deleteStartup (db : DB) (sid : Nat) : DB :=
  { db with
      startups := db.startups.filter (fun s => s.id != sid),
      interests := db.interests.filter (fun i => i.startup != sid) }

/-- Deleting a user row: per `on_delete=models.CASCADE` on both
    `Startup.owner` and `StartupInterest.user`, the user's startups and
    interest rows are removed in the same operation; interests referencing
    a cascaded startup are removed by the startup cascade in turn. -/
def deleteUser (db : DB) (uid : Nat) : DB :=
  let survivors := db.startups.filter (fun s => s.owner != uid)
  { users := db.users.filter (fun u => u != uid),
    startups := survivors,
    interests := db.interests.filter
      (fun i => i.user != uid && survivors.any (fun s => s.id == i.startup)) }

/-- `StartupListCreateView` POST (`create` + `perform_create`): DRF first
    checks `IsAuthenticated`, then validates the body
    (`serializer.is_valid(raise_exception=True)` → 400), then
    `perform_create` raises `PermissionDenied` (403) unless
    `request.user.role == User.Role.FOUNDER`, and finally saves the startup
    with `owner=request.user` and returns 201. -/
def startupCreate (db : DB) (auth : Option Principal) (bodyValid : Bool)
    (newId : Nat) : Resp × DB :=
  if !(isAuthenticated auth) then (permDenyResp auth, db)
  else
    match auth with
    | none => (permDenyResp auth, db)
    | some p =>
        if !bodyValid then (⟨400, "Validation error"⟩, db)
        else if p.role != Role.founder then
          (⟨403, "Only founders can create startups."⟩, db)
        else
          (⟨201, "Startup created successfully!"⟩,
           { db with startups := ⟨newId, p.id⟩ :: db.startups })

/-- `StartupDetailView` (`RetrieveUpdateDestroyAPIView`,
    `permission_classes = [IsOwnerOrReadOnly]`).  DRF order: view-level
    permission (`IsAuthenticated` part, 401), then `get_object` — queryset
    lookup by `id` (404 when absent) followed by `check_object_permissions`
    (403 for an authenticated non-owner on a write method) — then the
    handler: `update` validates the body (400 on invalid) and saves,
    `destroy` deletes the row (cascading interests) and returns 200. -/
def startupDetail (db : DB) (auth : Option Principal) (m : Method)
    (sid : Nat) (bodyValid : Bool) : Resp × DB :=
  if !(isAuthenticated auth) then (permDenyResp auth, db)
  else
    match auth with
    | none => (permDenyResp auth, db)
    | some p =>
        match findStartup db sid with
        | none => (⟨404, "Not found."⟩, db)
        | some s =>
            if !(isOwnerOrReadOnlyObject m p s) then
              (⟨403, "You do not have permission to perform this action."⟩, db)
            else
              match m with
              | Method.delete =>
                  (⟨200, "Startup deleted successfully!"⟩, deleteStartup db sid)
              | Method.put =>
                  if bodyValid then (⟨200, "Startup updated successfully!"⟩, db)
                  else (⟨400, "Validation error"⟩, db)
              | Method.patch =>
                  if bodyValid then (⟨200, "Startup updated successfully!"⟩, db)
                  else (⟨400, "Validation error"⟩, db)
              | _ => (⟨200, ""⟩, db)

/-- `MyStartupsView` (`permission_classes = [IsAuthenticated]`): returns the
    startups with `owner=request.user`. -/
def myStartups (db : DB) (auth : Option Principal) : Resp × List Startup :=
  if !(isAuthenticated auth) then (permDenyResp auth, [])
  else
    match auth with
    | none => (permDenyResp auth, [])
    | some p => (⟨200, ""⟩, db.startups.filter (fun s => s.owner == p.id))

/-- `StartupInterestCreateDestroyView.create`
    (`permission_classes = [IsTalent]`): permission check (401/403), then
    `get_object_or_404(Startup, id=startup_id)` (404), then the duplicate
    guard returning 400 with a message, else the interest row is created and
    201 returned (the interest serializer has no writable fields, so body
    validation never fails). -/
def interestCreate (db : DB) (auth : Option Principal) (sid : Nat) :
    Resp × DB :=
  if !(isTalentPerm auth) then (permDenyResp auth, db)
  else
    match auth with
    | none => (permDenyResp auth, db)
    | some p =>
        match findStartup db sid with
        | none => (⟨404, "Not found."⟩, db)
        | some _ =>
            if interestExists db p.id sid then
              (⟨400, "You have already expressed interest in this startup."⟩, db)
            else
              (⟨201, ""⟩, { db with interests := ⟨p.id, sid⟩ :: db.interests })

/-- `StartupInterestCreateDestroyView.destroy`: permission check, then
    `get_object_or_404(Startup, …)` (404), then
    `StartupInterest.objects.get(user=…, startup=…)`: on success the row is
    deleted and 200 returned, on `DoesNotExist` a 400 response with a
    structured message is returned and the state is unchanged. -/
def interestDestroy (db : DB) (auth : Option Principal) (sid : Nat) :
    Resp × DB :=
  if !(isTalentPerm auth) then (permDenyResp auth, db)
  else
    match auth with
    | none => (permDenyResp auth, db)
    | some p =>
        match findStartup db sid with
        | none => (⟨404, "Not found."⟩, db)
        | some _ =>
            if interestExists db p.id sid then
              let remaining :=
                db.interests.filter (fun i => !(i.user == p.id && i.startup == sid))
              (⟨200, "Interest withdrawn successfully!"⟩,
               { db with interests := remaining })
            else
              (⟨400, "You have not expressed interest in this startup."⟩, db)

/-- `MyInterestsView` (`permission_classes = [IsTalent]`): returns the
    interest rows with `user=request.user`. -/
def myInterests (db : DB) (auth : Option Principal) : Resp × List Interest :=
  if !(isTalentPerm auth) then (permDenyResp auth, [])
  else
    match auth with
    | none => (permDenyResp auth, [])
    | some p => (⟨200, ""⟩, db.interests.filter (fun i => i.user == p.id))

/-- Token kinds (`token_type` claim): `ACCESS` or `REFRESH`. -/
inductive TokenKind where
  | access
  | refresh
  deriving DecidableEq, Repr

/-- Modelled from the spec: the Token data model of §3 — the verification
    code itself lives in `rest_framework_simplejwt`, not under `src/`; only
    its configuration (`SIMPLE_JWT` in `settings.py`) and callers are.
    `{subject, role, issued_at, expires_at, kind}`, signed with a
    process-wide secret (`sig` stands for the HMAC over the claims). -/
structure Token where
  subject : Nat
  role : Role
  issuedAt : Nat
  expiresAt : Nat
  kind : TokenKind
  deriving DecidableEq, Repr

/-- A token as transported: claims plus the signature bytes. -/
structure SignedToken where
  claims : Token
  sig : Nat
  deriving DecidableEq, Repr

/-- Numeric encoding of a role inside a signature. -/
def Role.code : Role → Nat
  | Role.founder => 0
  | Role.talent => 1

/-- Numeric encoding of a token kind inside a signature. -/
def TokenKind.code : TokenKind → Nat
  | TokenKind.access => 0
  | TokenKind.refresh => 1

/-- Modelled from the spec: the HMAC-SHA256 signature over the claim set,
    abstracted to an injective pairing of the secret with the claims. -/
def mkSig (secret : Nat) (t : Token) : Nat :=
  Nat.pair secret
    (Nat.pair t.subject
      (Nat.pair t.role.code (Nat.pair t.issuedAt (Nat.pair t.expiresAt t.kind.code))))

/-- `ACCESS_TOKEN_LIFETIME = timedelta(hours=1)` from `settings.py`,
    in seconds. -/
def accessTTL : Nat := 3600

/-- `REFRESH_TOKEN_LIFETIME = timedelta(days=7)` from `settings.py`,
    in seconds. -/
def refreshTTL : Nat := 604800

/-- Modelled from the spec: the Credential Issuer (§4.1),
    `issue(principalId, role) -> (accessToken, refreshToken)` with
    `issued_at = now`, `expires_at = now + configured TTL`; implemented by
    `RefreshToken.for_user` of `rest_framework_simplejwt`, not under
    `src/`. -/
def issue (secret : Nat) (pid : Nat) (role : Role) (now : Nat) :
    SignedToken × SignedToken :=
  let acc : Token := ⟨pid, role, now, now + accessTTL, TokenKind.access⟩
  let ref : Token := ⟨pid, role, now, now + refreshTTL, TokenKind.refresh⟩
  (⟨acc, mkSig secret acc⟩, ⟨ref, mkSig secret ref⟩)

/-- Verification failures of §4.2. -/
inductive VerifyError where
  | invalidSignature
  | tokenExpired
  | wrongTokenKind
  deriving DecidableEq, Repr

/-- Modelled from the spec: the Credential Verifier (§4.2),
    `verify(rawToken, expectedKind) -> Principal | Error` — implemented by
    `rest_framework_simplejwt` token classes, not under `src/`.  Checks the
    signature, then `expires_at > now`, then `kind == expectedKind`; on
    success returns the Principal built from the claims with
    `active = true`, without consulting any user store. -/
def verify (secret : Nat) (st : SignedToken) (expected : TokenKind)
    (now : Nat) : Except VerifyError Principal :=
  if st.sig != mkSig secret st.claims then Except.error VerifyError.invalidSignature
  else if !(decide (now < st.claims.expiresAt)) then Except.error VerifyError.tokenExpired
  else if st.claims.kind != expected then Except.error VerifyError.wrongTokenKind
  else Except.ok ⟨st.claims.subject, st.claims.role, true⟩

/-- The `unique_together = ['user', 'startup']` constraint of
    `StartupInterest.Meta`: at most one interest row per (user, startup)
    pair. -/
def uniqueInterests (db : DB) : Prop :=
  db.interests.Pairwise (fun a b => ¬(a.user = b.user ∧ a.startup = b.startup))

/-- Referential integrity of the interest table: every interest row
    references an existing user and an existing startup. -/
def refIntegrity (db : DB) : Prop :=
  ∀ i ∈ db.interests, i.user ∈ db.users ∧ ∃ s ∈ db.startups, s.id = i.startup

instance refIntegrityDecidable (db : DB) : Decidable (refIntegrity db) :=
  inferInstanceAs
    (Decidable (∀ i ∈ db.interests,
      i.user ∈ db.users ∧ ∃ s ∈ db.startups, s.id = i.startup))

/-- A write method of `StartupDetailView` (update or delete). -/
def Method.isWrite (m : Method) : Prop :=
  m = Method.put ∨ m = Method.patch ∨ m = Method.delete

/-- C1: for a write (update/delete) on an existing startup, an authenticated
    principal whose id differs from the owner's is denied with 403 — the
    principal's role is not consulted; the owner is allowed through (200 on
    a valid body); an unauthenticated request is denied with 401. -/
theorem update_delete_owner_only
    (db : DB) (p : Principal) (m : Method) (sid : Nat) (s : Startup) (bv : Bool)
    (hm : m.isWrite) (hs : findStartup db sid = some s) (hp : p.active = true) :
    (p.id ≠ s.owner →
      startupDetail db (some p) m sid bv =
        (⟨403, "You do not have permission to perform this action."⟩, db))
    ∧ (p.id = s.owner → bv = true →
        (startupDetail db (some p) m sid bv).1.status = 200)
    ∧ startupDetail db none m sid bv =
        (⟨401, "Authentication credentials were not provided."⟩, db) := by
  refine ⟨fun hne => ?_, fun heq hbv => ?_, ?_⟩
  · rcases hm with h | h | h <;> subst h <;>
      simp [startupDetail, isAuthenticated, hp, hs, isOwnerOrReadOnlyObject,
        Ne.symm hne]
  · rcases hm with h | h | h <;> subst h <;>
      simp [startupDetail, isAuthenticated, hp, hs, isOwnerOrReadOnlyObject,
        heq.symm, hbv]
  · simp [startupDetail, isAuthenticated, permDenyResp]

/-- Closed instance of `update_delete_owner_only` at a concrete state. -/
theorem update_delete_owner_only_witness :
    ((7 : Nat) ≠ (5 : Nat) →
      startupDetail ⟨[5, 7], [⟨1, 5⟩], []⟩ (some ⟨7, Role.founder, true⟩)
          Method.delete 1 true =
        (⟨403, "You do not have permission to perform this action."⟩,
         ⟨[5, 7], [⟨1, 5⟩], []⟩))
    ∧ ((7 : Nat) = (5 : Nat) → true = true →
        (startupDetail ⟨[5, 7], [⟨1, 5⟩], []⟩ (some ⟨7, Role.founder, true⟩)
            Method.delete 1 true).1.status = 200)
    ∧ startupDetail ⟨[5, 7], [⟨1, 5⟩], []⟩ none Method.delete 1 true =
        (⟨401, "Authentication credentials were not provided."⟩,
         ⟨[5, 7], [⟨1, 5⟩], []⟩) :=
  update_delete_owner_only ⟨[5, 7], [⟨1, 5⟩], []⟩ ⟨7, Role.founder, true⟩
    Method.delete 1 ⟨1, 5⟩ true (Or.inr (Or.inr rfl)) rfl rfl

/-- C5: the existence check precedes the ownership check — when the target
    startup does not exist every authenticated principal receives 404, and a
    403 response is only ever produced when the target exists. -/
theorem existence_checked_before_ownership
    (db : DB) (p : Principal) (m : Method) (sid : Nat) (bv : Bool)
    (hp : p.active = true) :
    (findStartup db sid = none →
      startupDetail db (some p) m sid bv = (⟨404, "Not found."⟩, db))
    ∧ (∀ auth, (startupDetail db auth m sid bv).1.status = 403 →
        ∃ s, findStartup db sid = some s) := by
  constructor
  · intro hnone
    simp [startupDetail, isAuthenticated, hp, hnone]
  · intro auth h403
    cases hf : findStartup db sid with
    | some s => exact ⟨s, rfl⟩
    | none =>
        exfalso
        cases auth with
        | none => simp [startupDetail, isAuthenticated, permDenyResp] at h403
        | some q =>
            by_cases hq : q.active = true
            · simp [startupDetail, isAuthenticated, hq, hf] at h403
            · have hq' : q.active = false := by
                cases h : q.active
                · rfl
                · exact absurd h hq
              simp [startupDetail, isAuthenticated, permDenyResp, hq', hf]
                at h403

/-- Closed instance of `existence_checked_before_ownership` at a concrete
    state with no startup rows. -/
theorem existence_checked_before_ownership_witness :
    (findStartup ⟨[5], [], []⟩ 9 = none →
      startupDetail ⟨[5], [], []⟩ (some ⟨5, Role.founder, true⟩) Method.put 9
          true = (⟨404, "Not found."⟩, ⟨[5], [], []⟩))
    ∧ (∀ auth,
        (startupDetail ⟨[5], [], []⟩ auth Method.put 9 true).1.status = 403 →
        ∃ s, findStartup ⟨[5], [], []⟩ 9 = some s) :=
  existence_checked_before_ownership ⟨[5], [], []⟩ ⟨5, Role.founder, true⟩
    Method.put 9 true rfl

/-- C2: with a valid body, an authenticated TALENT principal's create-startup
    request is denied with 403; a 201 success is only ever produced for a
    FOUNDER principal; a FOUNDER with a valid body succeeds; an
    unauthenticated request is denied with 401. -/
theorem create_startup_requires_founder
    (db : DB) (p : Principal) (bv : Bool) (nid : Nat) (hp : p.active = true) :
    (p.role = Role.talent → bv = true →
      startupCreate db (some p) bv nid =
        (⟨403, "Only founders can create startups."⟩, db))
    ∧ (∀ auth, (startupCreate db auth bv nid).1.status = 201 →
        ∃ q, auth = some q ∧ q.role = Role.founder)
    ∧ (p.role = Role.founder → bv = true →
        (startupCreate db (some p) bv nid).1.status = 201)
    ∧ startupCreate db none bv nid =
        (⟨401, "Authentication credentials were not provided."⟩, db) := by
  refine ⟨fun hr hbv => ?_, fun auth h201 => ?_, fun hr hbv => ?_, ?_⟩
  · simp [startupCreate, isAuthenticated, hp, hbv, hr]
  · cases auth with
    | none => simp [startupCreate, isAuthenticated, permDenyResp] at h201
    | some q =>
        refine ⟨q, rfl, ?_⟩
        by_cases hq : q.active = true
        · by_cases hqr : q.role = Role.founder
          · exact hqr
          · exfalso
            cases hbv : bv
            · simp [startupCreate, isAuthenticated, hq, hbv] at h201
            · simp [startupCreate, isAuthenticated, hq, hbv, hqr] at h201
        · exfalso
          have hq' : q.active = false := by
            cases h : q.active
            · rfl
            · exact absurd h hq
          simp [startupCreate, isAuthenticated, permDenyResp, hq'] at h201
  · simp [startupCreate, isAuthenticated, hp, hbv, hr]
  · simp [startupCreate, isAuthenticated, permDenyResp]

/-- Closed instance of `create_startup_requires_founder` at a concrete
    state. -/
theorem create_startup_requires_founder_witness :
    ((Role.talent = Role.talent → true = true →
      startupCreate ⟨[2], [], []⟩ (some ⟨2, Role.talent, true⟩) true 10 =
        (⟨403, "Only founders can create startups."⟩, ⟨[2], [], []⟩))
    ∧ (∀ auth,
        (startupCreate ⟨[2], [], []⟩ auth true 10).1.status = 201 →
        ∃ q, auth = some q ∧ q.role = Role.founder)
    ∧ (Role.talent = Role.founder → true = true →
        (startupCreate ⟨[2], [], []⟩ (some ⟨2, Role.talent, true⟩) true
            10).1.status = 201)
    ∧ startupCreate ⟨[2], [], []⟩ none true 10 =
        (⟨401, "Authentication credentials were not provided."⟩,
         ⟨[2], [], []⟩)) := by
  have h := create_startup_requires_founder ⟨[2], [], []⟩
    ⟨2, Role.talent, true⟩ true 10 rfl
  exact h

/-- Uniqueness of interest rows survives filtering the interest table. -/
theorem uniqueInterests_filter (db : DB) (f : Interest → Bool)
    (h : uniqueInterests db) :
    uniqueInterests { db with interests := db.interests.filter f } :=
  List.Pairwise.filter f h

/-- C3: when an interest row for (user, startup) already exists, the create
    request of that user is answered with a structured 400 conflict message
    and the state is unchanged (no second row); and the at-most-one-row
    invariant `uniqueInterests` is preserved by every operation. -/
theorem duplicate_interest_conflict
    (db : DB) (p : Principal) (sid : Nat)
    (hp : p.active = true) (hr : p.role = Role.talent)
    (hst : (findStartup db sid).isSome = true)
    (hex : interestExists db p.id sid = true) :
    interestCreate db (some p) sid =
      (⟨400, "You have already expressed interest in this startup."⟩, db)
    ∧ (∀ db0 : DB, uniqueInterests db0 →
        ∀ auth sid2 m nid bv,
          uniqueInterests (interestCreate db0 auth sid2).2
          ∧ uniqueInterests (interestDestroy db0 auth sid2).2
          ∧ uniqueInterests (startupCreate db0 auth bv nid).2
          ∧ uniqueInterests (startupDetail db0 auth m sid2 bv).2) := by
  constructor
  · obtain ⟨s, hs⟩ := Option.isSome_iff_exists.mp hst
    simp [interestCreate, isTalentPerm, isAuthenticated, hp, hr, hs, hex]
  · intro db0 h0 auth sid2 m nid bv
    refine ⟨?_, ?_, ?_, ?_⟩
    · unfold interestCreate
      cases auth with
      | none => simpa [isTalentPerm, isAuthenticated, permDenyResp] using h0
      | some q =>
          by_cases hq : isTalentPerm (some q) = true
          · cases hfs : findStartup db0 sid2 with
            | none => simpa [hq, hfs]
            | some s =>
                by_cases hexq : interestExists db0 q.id sid2 = true
                · simpa [hq, hfs, hexq]
                · have hexq' : interestExists db0 q.id sid2 = false := by
                    cases h : interestExists db0 q.id sid2
                    · rfl
                    · exact absurd h hexq
                  simp [hq, hfs, hexq']
                  refine List.Pairwise.cons ?_ h0
                  intro b hb hcontra
                  have : db0.interests.any
                      (fun i => i.user == q.id && i.startup == sid2) = true := by
                    refine List.any_eq_true.mpr ⟨b, hb, ?_⟩
                    simp [hcontra.1.symm, hcontra.2.symm]
                  rw [interestExists] at hexq'
                  rw [this] at hexq'
                  exact Bool.true_eq_false.mp hexq'
          · have hq' : isTalentPerm (some q) = false := by
              cases h : isTalentPerm (some q)
              · rfl
              · exact absurd h hq
            simpa [hq'] using h0
    · unfold interestDestroy
      cases auth with
      | none => simpa [isTalentPerm, isAuthenticated, permDenyResp] using h0
      | some q =>
          by_cases hq : isTalentPerm (some q) = true
          · cases hfs : findStartup db0 sid2 with
            | none => simpa [hq, hfs]
            | some s =>
                by_cases hexq : interestExists db0 q.id sid2 = true
                · simp [hq, hfs, hexq]
                  exact List.Pairwise.filter _ h0
                · have hexq' : interestExists db0 q.id sid2 = false := by
                    cases h : interestExists db0 q.id sid2
                    · rfl
                    · exact absurd h hexq
                  simpa [hq, hfs, hexq'] using h0
          · have hq' : isTalentPerm (some q) = false := by
              cases h : isTalentPerm (some q)
              · rfl
              · exact absurd h hq
            simpa [hq'] using h0
    · unfold startupCreate
      cases auth with
      | none => simpa [isAuthenticated, permDenyResp] using h0
      | some q =>
          by_cases hq : q.active = true
          · cases hbv : bv
            · simpa [isAuthenticated, hq, hbv] using h0
            · by_cases hqr : q.role = Role.founder
              · simpa [isAuthenticated, hq, hbv, hqr] using h0
              · simpa [isAuthenticated, hq, hbv, hqr] using h0
          · have hq' : q.active = false := by
              cases h : q.active
              · rfl
              · exact absurd h hq
            simpa [isAuthenticated, permDenyResp, hq'] using h0
    · unfold startupDetail
      cases auth with
      | none => simpa [isAuthenticated, permDenyResp] using h0
      | some q =>
          by_cases hq : q.active = true
          · cases hfs : findStartup db0 sid2 with
            | none => simpa [isAuthenticated, hq, hfs] using h0
            | some s =>
                by_cases hop : isOwnerOrReadOnlyObject m q s = true
                · cases m <;>
                    first
                    | (simpa [isAuthenticated, hq, hfs, hop] using h0)
                    | (cases hbv : bv <;>
                        simpa [isAuthenticated, hq, hfs, hop, hbv] using h0)
                    | (simp [isAuthenticated, hq, hfs, hop, deleteStartup]
                       exact List.Pairwise.filter _ h0)
                · have hop' : isOwnerOrReadOnlyObject m q s = false := by
                    cases h : isOwnerOrReadOnlyObject m q s
                    · rfl
                    · exact absurd h hop
                  simpa [isAuthenticated, hq, hfs, hop'] using h0
          · have hq' : q.active = false := by
              cases h : q.active
              · rfl
              · exact absurd h hq
            simpa [isAuthenticated, permDenyResp, hq'] using h0

/-- Closed instance of `duplicate_interest_conflict` at a concrete state
    with one existing interest row. -/
theorem duplicate_interest_conflict_witness :
    interestCreate ⟨[3], [⟨1, 9⟩], [⟨3, 1⟩]⟩ (some ⟨3, Role.talent, true⟩) 1 =
      (⟨400, "You have already expressed interest in this startup."⟩,
       ⟨[3], [⟨1, 9⟩], [⟨3, 1⟩]⟩)
    ∧ (∀ db0 : DB, uniqueInterests db0 →
        ∀ auth sid2 m nid bv,
          uniqueInterests (interestCreate db0 auth sid2).2
          ∧ uniqueInterests (interestDestroy db0 auth sid2).2
          ∧ uniqueInterests (startupCreate db0 auth bv nid).2
          ∧ uniqueInterests (startupDetail db0 auth m sid2 bv).2) :=
  duplicate_interest_conflict ⟨[3], [⟨1, 9⟩], [⟨3, 1⟩]⟩
    ⟨3, Role.talent, true⟩ 1 rfl rfl rfl rfl

/-- C4: deleting an interest that does not exist is answered with a
    structured 400 message (not a 404 status) and leaves the state
    unchanged; moreover, for any state, create on a PRESENT pair and delete
    on an ABSENT pair never change the state. -/
theorem delete_absent_interest_rejected
    (db : DB) (p : Principal) (sid : Nat)
    (hp : p.active = true) (hr : p.role = Role.talent)
    (hst : (findStartup db sid).isSome = true)
    (habs : interestExists db p.id sid = false) :
    interestDestroy db (some p) sid =
      (⟨400, "You have not expressed interest in this startup."⟩, db)
    ∧ (∀ (db2 : DB) (q : Principal) (sid2 : Nat),
        (interestExists db2 q.id sid2 = true →
          (interestCreate db2 (some q) sid2).2 = db2)
        ∧ (interestExists db2 q.id sid2 = false →
          (interestDestroy db2 (some q) sid2).2 = db2)) := by
  constructor
  · obtain ⟨s, hs⟩ := Option.isSome_iff_exists.mp hst
    simp [interestDestroy, isTalentPerm, isAuthenticated, hp, hr, hs, habs]
  · intro db2 q sid2
    constructor
    · intro hex
      unfold interestCreate
      by_cases hq : isTalentPerm (some q) = true
      · cases hfs : findStartup db2 sid2 with
        | none => simp [hq, hfs]
        | some s => simp [hq, hfs, hex]
      · have hq' : isTalentPerm (some q) = false := by
          cases h : isTalentPerm (some q)
          · rfl
          · exact absurd h hq
        simp [hq']
    · intro habs2
      unfold interestDestroy
      by_cases hq : isTalentPerm (some q) = true
      · cases hfs : findStartup db2 sid2 with
        | none => simp [hq, hfs]
        | some s => simp [hq, hfs, habs2]
      · have hq' : isTalentPerm (some q) = false := by
          cases h : isTalentPerm (some q)
          · rfl
          · exact absurd h hq
        simp [hq']

/-- Closed instance of `delete_absent_interest_rejected` at a concrete state
    with no interest rows. -/
theorem delete_absent_interest_rejected_witness :
    interestDestroy ⟨[3], [⟨1, 9⟩], []⟩ (some ⟨3, Role.talent, true⟩) 1 =
      (⟨400, "You have not expressed interest in this startup."⟩,
       ⟨[3], [⟨1, 9⟩], []⟩)
    ∧ (∀ (db2 : DB) (q : Principal) (sid2 : Nat),
        (interestExists db2 q.id sid2 = true →
          (interestCreate db2 (some q) sid2).2 = db2)
        ∧ (interestExists db2 q.id sid2 = false →
          (interestDestroy db2 (some q) sid2).2 = db2)) :=
  delete_absent_interest_rejected ⟨[3], [⟨1, 9⟩], []⟩
    ⟨3, Role.talent, true⟩ 1 rfl rfl rfl rfl

/-- Counterexample to C9 as stated: `MyStartupsView` carries only
    `IsAuthenticated`, so an authenticated TALENT principal requesting the
    my-resources collection is answered 200, not denied 403 for lacking the
    FOUNDER role. -/
theorem myStartups_does_not_require_founder :
    (myStartups ⟨[3], [⟨1, 3⟩], []⟩ (some ⟨3, Role.talent, true⟩)).1.status
        = 200
    ∧ (myStartups ⟨[3], [⟨1, 3⟩], []⟩ (some ⟨3, Role.talent, true⟩)).1.status
        ≠ 403 := by
  constructor
  · rfl
  · decide

/-- C9 (amended): my-resources requires only authentication (no role
    check), my-interests requires authentication and the TALENT role, and
    the returned rows are exactly those whose owner/user field equals the
    requesting principal's id; unauthenticated requests get 401. -/
theorem my_collections_scoped
    (db : DB) (p : Principal) (hp : p.active = true) :
    ((myStartups db (some p)).1.status = 200
      ∧ ∀ s : Startup, s ∈ (myStartups db (some p)).2 ↔
          s ∈ db.startups ∧ s.owner = p.id)
    ∧ (p.role = Role.talent →
        (myInterests db (some p)).1.status = 200
        ∧ ∀ i : Interest, i ∈ (myInterests db (some p)).2 ↔
            i ∈ db.interests ∧ i.user = p.id)
    ∧ (p.role = Role.founder → (myInterests db (some p)).1.status = 403)
    ∧ (myStartups db none).1.status = 401
    ∧ (myInterests db none).1.status = 401 := by
  refine ⟨⟨?_, fun s => ?_⟩, fun hr => ⟨?_, fun i => ?_⟩, fun hr => ?_, ?_, ?_⟩
  · simp [myStartups, isAuthenticated, hp]
  · simp [myStartups, isAuthenticated, hp, List.mem_filter]
  · simp [myInterests, isTalentPerm, isAuthenticated, hp, hr]
  · simp [myInterests, isTalentPerm, isAuthenticated, hp, hr, List.mem_filter]
  · simp [myInterests, isTalentPerm, isAuthenticated, permDenyResp, hp, hr]
  · simp [myStartups, isAuthenticated, permDenyResp]
  · simp [myInterests, isTalentPerm, isAuthenticated, permDenyResp]

/-- Closed instance of `my_collections_scoped` at a concrete state. -/
theorem my_collections_scoped_witness :
    ((myStartups ⟨[3, 5], [⟨1, 5⟩], [⟨3, 1⟩]⟩
          (some ⟨3, Role.talent, true⟩)).1.status = 200
      ∧ ∀ s : Startup,
          s ∈ (myStartups ⟨[3, 5], [⟨1, 5⟩], [⟨3, 1⟩]⟩
              (some ⟨3, Role.talent, true⟩)).2 ↔
            s ∈ [(⟨1, 5⟩ : Startup)] ∧ s.owner = 3)
    ∧ (Role.talent = Role.talent →
        (myInterests ⟨[3, 5], [⟨1, 5⟩], [⟨3, 1⟩]⟩
            (some ⟨3, Role.talent, true⟩)).1.status = 200
        ∧ ∀ i : Interest,
            i ∈ (myInterests ⟨[3, 5], [⟨1, 5⟩], [⟨3, 1⟩]⟩
                (some ⟨3, Role.talent, true⟩)).2 ↔
              i ∈ [(⟨3, 1⟩ : Interest)] ∧ i.user = 3)
    ∧ (Role.talent = Role.founder →
        (myInterests ⟨[3, 5], [⟨1, 5⟩], [⟨3, 1⟩]⟩
            (some ⟨3, Role.talent, true⟩)).1.status = 403)
    ∧ (myStartups ⟨[3, 5], [⟨1, 5⟩], [⟨3, 1⟩]⟩ none).1.status = 401
    ∧ (myInterests ⟨[3, 5], [⟨1, 5⟩], [⟨3, 1⟩]⟩ none).1.status = 401 :=
  my_collections_scoped ⟨[3, 5], [⟨1, 5⟩], [⟨3, 1⟩]⟩
    ⟨3, Role.talent, true⟩ rfl

/-- Cascade-deleting a startup keeps the interest table free of dangling
    references. -/
theorem refIntegrity_deleteStartup (db : DB) (sid : Nat)
    (h : refIntegrity db) : refIntegrity (deleteStartup db sid) := by
  intro i hi
  rw [deleteStartup] at hi
  simp only [List.mem_filter] at hi
  obtain ⟨hmem, hne⟩ := hi
  obtain ⟨hu, s, hs, hsid⟩ := h i hmem
  refine ⟨hu, s, ?_, hsid⟩
  rw [deleteStartup]
  simp only [List.mem_filter]
  refine ⟨hs, ?_⟩
  rw [hsid]
  exact hne

/-- Cascade-deleting a user keeps the interest table free of dangling
    references. -/
theorem refIntegrity_deleteUser (db : DB) (uid : Nat)
    (h : refIntegrity db) : refIntegrity (deleteUser db uid) := by
  intro i hi
  rw [deleteUser] at hi
  simp only [List.mem_filter, Bool.and_eq_true] at hi
  obtain ⟨hmem, hne, hany⟩ := hi
  obtain ⟨hu, s, hs, hsid⟩ := h i hmem
  constructor
  · rw [deleteUser]
    simp only [List.mem_filter]
    exact ⟨hu, hne⟩
  · obtain ⟨t, ht, hts⟩ := List.any_eq_true.mp hany
    refine ⟨t, ?_, by simpa using hts⟩
    rw [deleteUser]
    simpa using ht

/-- C10: starting from a state where every interest row references an
    existing user and startup, every operation preserves that invariant —
    deleting a startup or a user cascades to the interest rows referencing
    it, creating an interest requires the startup to exist and the creating
    user to be a user row, and the remaining operations only shrink the
    interest table or grow the other tables. -/
theorem no_dangling_interest (db : DB) (hri : refIntegrity db) :
    (∀ sid, refIntegrity (deleteStartup db sid))
    ∧ (∀ uid, refIntegrity (deleteUser db uid))
    ∧ (∀ (p : Principal) (sid : Nat), p.id ∈ db.users →
        refIntegrity (interestCreate db (some p) sid).2)
    ∧ (∀ auth sid, refIntegrity (interestDestroy db auth sid).2)
    ∧ (∀ auth m sid bv, refIntegrity (startupDetail db auth m sid bv).2)
    ∧ (∀ auth bv nid, refIntegrity (startupCreate db auth bv nid).2) := by
  refine ⟨fun sid => refIntegrity_deleteStartup db sid hri,
    fun uid => refIntegrity_deleteUser db uid hri,
    fun p sid hpu => ?_, fun auth sid => ?_, fun auth m sid bv => ?_,
    fun auth bv nid => ?_⟩
  · unfold interestCreate
    by_cases hq : isTalentPerm (some p) = true
    · cases hfs : findStartup db sid with
      | none => simpa [hq, hfs] using hri
      | some s =>
          by_cases hex : interestExists db p.id sid = true
          · simpa [hq, hfs, hex] using hri
          · have hex' : interestExists db p.id sid = false := by
              cases h : interestExists db p.id sid
              · rfl
              · exact absurd h hex
            simp [hq, hfs, hex']
            intro i hi
            simp only [List.mem_cons] at hi
            cases hi with
            | inl hnew =>
                subst hnew
                refine ⟨hpu, s, List.mem_of_find?_eq_some hfs, ?_⟩
                have := List.find?_some hfs
                simpa using this
            | inr hold => exact hri i hold
    · have hq' : isTalentPerm (some p) = false := by
        cases h : isTalentPerm (some p)
        · rfl
        · exact absurd h hq
      simpa [hq'] using hri
  · unfold interestDestroy
    cases auth with
    | none => simpa [isTalentPerm, isAuthenticated, permDenyResp] using hri
    | some q =>
        by_cases hq : isTalentPerm (some q) = true
        · cases hfs : findStartup db sid with
          | none => simpa [hq, hfs] using hri
          | some s =>
              by_cases hex : interestExists db q.id sid = true
              · simp [hq, hfs, hex]
                intro i hi
                simp only [List.mem_filter] at hi
                exact hri i hi.1
              · have hex' : interestExists db q.id sid = false := by
                  cases h : interestExists db q.id sid
                  · rfl
                  · exact absurd h hex
                simpa [hq, hfs, hex'] using hri
        · have hq' : isTalentPerm (some q) = false := by
            cases h : isTalentPerm (some q)
            · rfl
            · exact absurd h hq
          simpa [hq'] using hri
  · unfold startupDetail
    cases auth with
    | none => simpa [isAuthenticated, permDenyResp] using hri
    | some q =>
        by_cases hq : q.active = true
        · cases hfs : findStartup db sid with
          | none => simpa [isAuthenticated, hq, hfs] using hri
          | some s =>
              by_cases hop : isOwnerOrReadOnlyObject m q s = true
              · cases m <;>
                  first
                  | (simpa [isAuthenticated, hq, hfs, hop] using hri)
                  | (cases hbv : bv <;>
                      simpa [isAuthenticated, hq, hfs, hop, hbv] using hri)
                  | (simp only [isAuthenticated, hq, hfs, hop]
                     simpa using refIntegrity_deleteStartup db sid hri)
              · have hop' : isOwnerOrReadOnlyObject m q s = false := by
                  cases h : isOwnerOrReadOnlyObject m q s
                  · rfl
                  · exact absurd h hop
                simpa [isAuthenticated, hq, hfs, hop'] using hri
        · have hq' : q.active = false := by
            cases h : q.active
            · rfl
            · exact absurd h hq
          simpa [isAuthenticated, permDenyResp, hq'] using hri
  · unfold startupCreate
    cases auth with
    | none => simpa [isAuthenticated, permDenyResp] using hri
    | some q =>
        by_cases hq : q.active = true
        · cases hbv : bv
          · simpa [isAuthenticated, hq] using hri
          · by_cases hqr : q.role = Role.founder
            · simp only [isAuthenticated, hq, hqr]
              intro i hi
              obtain ⟨hu, s, hs, hsid⟩ := hri i (by simpa using hi)
              exact ⟨by simpa using hu, s, by simp [hs], hsid⟩
            · simpa [isAuthenticated, hq, hqr] using hri
        · have hq' : q.active = false := by
            cases h : q.active
            · rfl
            · exact absurd h hq
          simpa [isAuthenticated, permDenyResp, hq'] using hri

/-- Closed instance of `no_dangling_interest` at a concrete state. -/
theorem no_dangling_interest_witness :
    (∀ sid, refIntegrity (deleteStartup ⟨[2, 3], [⟨1, 2⟩], [⟨3, 1⟩]⟩ sid))
    ∧ (∀ uid, refIntegrity (deleteUser ⟨[2, 3], [⟨1, 2⟩], [⟨3, 1⟩]⟩ uid))
    ∧ (∀ (p : Principal) (sid : Nat), p.id ∈ [2, 3] →
        refIntegrity
          (interestCreate ⟨[2, 3], [⟨1, 2⟩], [⟨3, 1⟩]⟩ (some p) sid).2)
    ∧ (∀ auth sid,
        refIntegrity
          (interestDestroy ⟨[2, 3], [⟨1, 2⟩], [⟨3, 1⟩]⟩ auth sid).2)
    ∧ (∀ auth m sid bv,
        refIntegrity
          (startupDetail ⟨[2, 3], [⟨1, 2⟩], [⟨3, 1⟩]⟩ auth m sid bv).2)
    ∧ (∀ auth bv nid,
        refIntegrity
          (startupCreate ⟨[2, 3], [⟨1, 2⟩], [⟨3, 1⟩]⟩ auth bv nid).2) :=
  no_dangling_interest ⟨[2, 3], [⟨1, 2⟩], [⟨3, 1⟩]⟩ (by decide)

/-- C6: verification of a correctly signed, unexpired access token returns
    the Principal built from the token's claims alone, with `active = true`
    — no user store is consulted, so the result is unchanged by any later
    edit to the user record, and verifying the same token again yields the
    same Principal. -/
theorem verify_is_stateless
    (secret : Nat) (st : SignedToken) (now : Nat)
    (hsig : st.sig = mkSig secret st.claims)
    (hexp : now < st.claims.expiresAt)
    (hkind : st.claims.kind = TokenKind.access) :
    verify secret st TokenKind.access now =
      Except.ok ⟨st.claims.subject, st.claims.role, true⟩ := by
  simp [verify, hsig, hexp, hkind]

/-- Closed instance of `verify_is_stateless` at a concrete token. -/
theorem verify_is_stateless_witness :
    verify 11 ⟨⟨4, Role.talent, 0, 100, TokenKind.access⟩,
        mkSig 11 ⟨4, Role.talent, 0, 100, TokenKind.access⟩⟩
      TokenKind.access 50 = Except.ok ⟨4, Role.talent, true⟩ :=
  verify_is_stateless 11
    ⟨⟨4, Role.talent, 0, 100, TokenKind.access⟩,
     mkSig 11 ⟨4, Role.talent, 0, 100, TokenKind.access⟩⟩
    50 rfl (by decide) rfl

/-- C7: a token whose kind differs from the expected kind is never
    accepted, and when its signature and expiry are otherwise valid the
    failure is precisely `WrongTokenKind` — so a refresh token can never
    authorize a resource call and an access token can never be presented
    for refresh. -/
theorem wrong_token_kind_rejected
    (secret : Nat) (st : SignedToken) (expected : TokenKind) (now : Nat)
    (hk : st.claims.kind ≠ expected) :
    (∀ p : Principal, verify secret st expected now ≠ Except.ok p)
    ∧ (st.sig = mkSig secret st.claims → now < st.claims.expiresAt →
        verify secret st expected now =
          Except.error VerifyError.wrongTokenKind) := by
  constructor
  · intro p
    unfold verify
    by_cases hsig : st.sig = mkSig secret st.claims
    · by_cases hexp : now < st.claims.expiresAt
      · simp [hsig, hexp, hk]
      · simp [hsig, hexp]
    · simp [hsig]
  · intro hsig hexp
    simp [verify, hsig, hexp, hk]

/-- Closed instance of `wrong_token_kind_rejected`: a refresh token
    presented where an access token is expected. -/
theorem wrong_token_kind_rejected_witness :
    (∀ p : Principal,
      verify 11 ⟨⟨4, Role.talent, 0, 100, TokenKind.refresh⟩,
          mkSig 11 ⟨4, Role.talent, 0, 100, TokenKind.refresh⟩⟩
        TokenKind.access 50 ≠ Except.ok p)
    ∧ ((⟨⟨4, Role.talent, 0, 100, TokenKind.refresh⟩,
          mkSig 11 ⟨4, Role.talent, 0, 100, TokenKind.refresh⟩⟩ :
            SignedToken).sig =
          mkSig 11 ⟨4, Role.talent, 0, 100, TokenKind.refresh⟩ →
        50 < 100 →
        verify 11 ⟨⟨4, Role.talent, 0, 100, TokenKind.refresh⟩,
            mkSig 11 ⟨4, Role.talent, 0, 100, TokenKind.refresh⟩⟩
          TokenKind.access 50 =
            Except.error VerifyError.wrongTokenKind) :=
  wrong_token_kind_rejected 11
    ⟨⟨4, Role.talent, 0, 100, TokenKind.refresh⟩,
     mkSig 11 ⟨4, Role.talent, 0, 100, TokenKind.refresh⟩⟩
    TokenKind.access 50 (by decide)

/-- C8: round-trip — verifying, at issuance time, the access token freshly
    issued for (id, role) succeeds and yields exactly
    `Principal{id, role, active=true}`. -/
theorem issue_verify_roundtrip
    (secret pid : Nat) (role : Role) (now : Nat) :
    verify secret (issue secret pid role now).1 TokenKind.access now =
      Except.ok ⟨pid, role, true⟩ := by
  simp [issue, verify, accessTTL]

end StartupHub
